import Mathlib

/-!
Shallow embedding of the data-cleaning and aggregation logic of `dash.py`
(the Streamlit dashboard): the `load_data` cleaning pipeline (header-row
removal, defensive numeric coercion, multi-format timestamp parsing,
year-range filtering) and the aggregation steps of `main` that the claims
concern (the year filter, the 3-month centred rolling mean, and the
pre/post-pandemic pie split including its strict UTC re-parse of the raw
timestamp column).

Library calls (`pd.to_datetime` with an explicit strptime format,
`pd.to_numeric`, `pd.to_datetime(..., utc=True, errors='coerce')`) are
modelled by executable Lean functions that follow the documented CPython
`strptime` / pandas behaviour on the inputs the program feeds them; the
generic best-effort inference fallback (`pd.to_datetime` without a format)
is an abstract parameter `infer`, since its acceptance set is a library
detail the source never constrains.
-/

namespace Dash

/-- Wall-clock date-time components as produced by a successful strptime
parse: year, month, day, hour, minute, second. -/
structure DT where
  year : Nat
  month : Nat
  day : Nat
  hour : Nat
  minute : Nat
  second : Nat
  deriving Repr, DecidableEq

/-- A parsed timestamp as returned by `pd.to_datetime(ts, format=...)`:
wall-clock components plus an optional fixed UTC offset in minutes
(`none` = timezone-naive result, as for formats without a `%z` directive). -/
structure ParsedTs where
  dt : DT
  tz : Option Int
  deriving Repr, DecidableEq

/-- Numeric value of a decimal digit character. -/
def digitVal (c : Char) : Nat := c.toNat - 48

/-- Gregorian leap-year test (as in Python's `calendar`/`datetime`). -/
def isLeap (y : Nat) : Bool := y % 4 == 0 && (y % 100 != 0 || y % 400 == 0)

/-- Number of days in a month, with leap years (the validity check
`datetime` performs when a strptime parse constructs a date). -/
def daysInMonth (y m : Nat) : Nat :=
  if m = 2 then (if isLeap y then 29 else 28)
  else if m = 4 ∨ m = 6 ∨ m = 9 ∨ m = 11 then 30
  else 31

/-- Model of a CPython strptime numeric field that matches one or two
digits: a two-digit match is taken when its value lies in `[lo2, hi2]`
(e.g. `1[0-2]|0[1-9]` for `%m`), otherwise a single digit `≥ lo1` is
taken (`[1-9]` for `%m`/`%d`, `\d` for `%H`/`%M`/`%S`). In the five
formats of `dash.py` every such field is followed by a non-digit literal
or end of string, so this committed choice coincides with the regex
backtracking CPython uses. -/
def parse2or1 (lo2 hi2 lo1 : Nat) : List Char → Option (Nat × List Char)
  | [] => none
  | [c1] =>
      if c1.isDigit && lo1 ≤ digitVal c1 then some (digitVal c1, []) else none
  | c1 :: c2 :: rest =>
      if c1.isDigit then
        if c2.isDigit then
          let v := 10 * digitVal c1 + digitVal c2
          if lo2 ≤ v && v ≤ hi2 then some (v, rest)
          else if lo1 ≤ digitVal c1 then some (digitVal c1, c2 :: rest)
          else none
        else if lo1 ≤ digitVal c1 then some (digitVal c1, c2 :: rest)
        else none
      else none

/-- Model of strptime `%Y`: exactly four digits. -/
def parse4Digits : List Char → Option (Nat × List Char)
  | a :: b :: c :: d :: rest =>
      if a.isDigit && b.isDigit && c.isDigit && d.isDigit then
        some (1000 * digitVal a + 100 * digitVal b + 10 * digitVal c + digitVal d, rest)
      else none
  | _ => none

/-- Consume one expected literal character of a strptime format. -/
def parseLit (ch : Char) : List Char → Option (List Char)
  | c :: rest => if c = ch then some rest else none
  | [] => none

/-- Magnitude of a `%z` offset: `HH`, an optional `:`, then `MM`, in
minutes; the resulting offset must be smaller than 24 hours (the bound
`datetime.timezone` enforces). -/
def parseOffMag (cs : List Char) : Option (Nat × List Char) :=
  match parse2or1 0 99 100 cs with
  | none => none
  | some (h1, cs) =>
    let cs1 := match parseLit ':' cs with | some r => r | none => cs
    match parse2or1 0 99 100 cs1 with
    | none => none
    | some (m1, cs2) =>
      if 60 * h1 + m1 < 1440 then some (60 * h1 + m1, cs2) else none

/-- Model of strptime `%z`: `Z`, or a sign followed by `HHMM` / `HH:MM`;
result is the offset in minutes east of UTC. -/
def parseTz : List Char → Option (Int × List Char)
  | 'Z' :: rest => some (0, rest)
  | '+' :: rest => (parseOffMag rest).map fun p => ((p.1 : Int), p.2)
  | '-' :: rest => (parseOffMag rest).map fun p => (-(p.1 : Int), p.2)
  | _ => none

/-- Parse `%Y-%m-%d`: four-digit year, literal `-`, month, literal `-`,
day, with the calendar-validity check `datetime` construction performs. -/
def parseYmd (cs : List Char) : Option ((Nat × Nat × Nat) × List Char) :=
  match parse4Digits cs with
  | none => none
  | some (y, cs) =>
  match parseLit '-' cs with
  | none => none
  | some cs =>
  match parse2or1 1 12 1 cs with
  | none => none
  | some (mo, cs) =>
  match parseLit '-' cs with
  | none => none
  | some cs =>
  match parse2or1 1 31 1 cs with
  | none => none
  | some (d, cs) =>
    if d ≤ daysInMonth y mo then some ((y, mo, d), cs) else none

/-- Parse `%H:%M:%S`. -/
def parseHms (cs : List Char) : Option ((Nat × Nat × Nat) × List Char) :=
  match parse2or1 0 23 0 cs with
  | none => none
  | some (h, cs) =>
  match parseLit ':' cs with
  | none => none
  | some cs =>
  match parse2or1 0 59 0 cs with
  | none => none
  | some (mi, cs) =>
  match parseLit ':' cs with
  | none => none
  | some cs =>
  match parse2or1 0 59 0 cs with
  | none => none
  | some (s, cs) => some ((h, mi, s), cs)

/-- Core of the formats `%Y-%m-%d<sep>%H:%M:%S`: date, the given
separator (`'T'` or `' '`), and a time of day. -/
def parseCore (sep : Char) (cs : List Char) : Option (DT × List Char) :=
  match parseYmd cs with
  | none => none
  | some ((y, mo, d), cs) =>
  match parseLit sep cs with
  | none => none
  | some cs =>
  match parseHms cs with
  | none => none
  | some ((h, mi, s), cs) => some (⟨y, mo, d, h, mi, s⟩, cs)

/-- Format `'%Y-%m-%dT%H:%M:%S%z'` (ISO-8601 with numeric offset). -/
def fmt1 (s : String) : Option ParsedTs :=
  match parseCore 'T' s.toList with
  | none => none
  | some (dt, cs) =>
  match parseTz cs with
  | none => none
  | some (off, cs) =>
    if cs.isEmpty then some ⟨dt, some off⟩ else none

/-- Format `'%Y-%m-%dT%H:%M:%S+0000'`: here `+0000` is literal text, not
a directive, so a match yields a timezone-naive result. -/
def fmt2 (s : String) : Option ParsedTs :=
  match parseCore 'T' s.toList with
  | none => none
  | some (dt, cs) =>
    match cs with
    | '+' :: '0' :: '0' :: '0' :: '0' :: [] => some ⟨dt, none⟩
    | _ => none

/-- Format `'%Y-%m-%dT%H:%M:%S'` (ISO-8601 without offset). -/
def fmt3 (s : String) : Option ParsedTs :=
  match parseCore 'T' s.toList with
  | none => none
  | some (dt, cs) => if cs.isEmpty then some ⟨dt, none⟩ else none

/-- Format `'%Y-%m-%d %H:%M:%S'` (space-separated date-time). -/
def fmt4 (s : String) : Option ParsedTs :=
  match parseCore ' ' s.toList with
  | none => none
  | some (dt, cs) => if cs.isEmpty then some ⟨dt, none⟩ else none

/-- Format `'%Y-%m-%d'` (date only; time defaults to midnight). -/
def fmt5 (s : String) : Option ParsedTs :=
  match parseYmd s.toList with
  | none => none
  | some ((y, mo, d), cs) =>
    if cs.isEmpty then some ⟨⟨y, mo, d, 0, 0, 0⟩, none⟩ else none

/-- The `formats` list of `parse_timestamp`, in source order. -/
def formatsList : List (String → Option ParsedTs) := [fmt1, fmt2, fmt3, fmt4, fmt5]

/-- The `for fmt in formats: try ... except: continue` loop: first
successful parse wins. -/
def firstSome (fs : List (String → Option ParsedTs)) (s : String) : Option ParsedTs :=
  match fs with
  | [] => none
  | f :: rest =>
      match f s with
      | some p => some p
      | none => firstSome rest s

/-- Try the five fixed formats in order. -/
def tryFormats (s : String) : Option ParsedTs := firstSome formatsList s

/-- `parse_timestamp` from `dash.py` (lines 49–75): reject null / the
literal header string / empty, then try the five formats in order, then
fall back to generic inference (`pd.to_datetime(ts, infer_datetime_format=True)`,
the abstract parameter `infer`); `none` models `pd.NaT`. -/
def parse_timestamp (infer : String → Option ParsedTs) (ts : Option String) :
    Option ParsedTs :=
  match ts with
  | none => none
  | some s =>
      if s = "timestamp" ∨ s = "" then none
      else
        match tryFormats s with
        | some p => some p
        | none => infer s

/-- Days since 1970-01-01 of a Gregorian calendar date (the civil-days
algorithm used to realise timestamps as absolute instants). -/
def daysFromCivil (y m d : Nat) : Int :=
  let yi : Int := if m ≤ 2 then (y : Int) - 1 else (y : Int)
  let era : Int := (if 0 ≤ yi then yi else yi - 399) / 400
  let yoe : Int := yi - era * 400
  let mp : Int := ((m : Int) + 9) % 12
  let doy : Int := (153 * mp + 2) / 5 + (d : Int) - 1
  let doe : Int := yoe * 365 + yoe / 4 - yoe / 100 + doy
  era * 146097 + doe - 719468

/-- Seconds since the epoch of wall-clock components read as UTC. -/
def epochSecs (t : DT) : Int :=
  86400 * daysFromCivil t.year t.month t.day
    + 3600 * (t.hour : Int) + 60 * (t.minute : Int) + (t.second : Int)

/-- English weekday name of a date (`Series.dt.day_name()`);
1970-01-01 was a Thursday. -/
def dayName (t : DT) : String :=
  let d := daysFromCivil t.year t.month t.day
  let k := ((d % 7 + 7) % 7).toNat
  ["Thursday", "Friday", "Saturday", "Sunday", "Monday", "Tuesday", "Wednesday"].getD k ""

/-- Nonempty all-digit string to a natural number. -/
def parseUnsigned (cs : List Char) : Option Nat :=
  if cs.isEmpty then none
  else if cs.all Char.isDigit then
    some (cs.foldl (fun a c => 10 * a + digitVal c) 0)
  else none

/-- Model of the library strict numeric parse `pd.to_numeric(x, errors='coerce')`
restricted to optionally signed integer literals: `none` models the `NaN`
produced for an unparseable value. -/
def parseIntStrict (s : String) : Option Int :=
  match s.toList with
  | '+' :: rest => (parseUnsigned rest).map fun n => (n : Int)
  | '-' :: rest => (parseUnsigned rest).map fun n => -(n : Int)
  | cs => (parseUnsigned cs).map fun n => (n : Int)

/-- `safe_numeric_convert` from `dash.py` (lines 32–39):
`pd.to_numeric(series, errors='coerce').fillna(0)` applied to one cell —
a missing cell (`none`) or an unparseable string becomes `0`, a parseable
value passes through. -/
def safe_numeric_convert (v : Option String) : Int :=
  match v with
  | none => 0
  | some s => (parseIntStrict s).getD 0

/-- One row of `posts.csv` as read by `pd.read_csv`: string cells,
`none` for a missing (`NaN`) cell. -/
structure RawRow where
  timestamp : Option String
  username : String
  followers_count : Option String
  media_count : Option String
  deriving Repr, DecidableEq

/-- The `timestamp` column cell of the dataframe: raw string after
loading, a UTC instant (seconds since epoch, `none` = `NaT`) after
`main` overwrites the column at line 364. -/
inductive TsCell where
  | raw (s : Option String)
  | utc (t : Option Int)
  deriving Repr, DecidableEq

/-- A row of the cleaned table `df_clean` (original columns plus the
derived calendar columns of lines 89–94). -/
structure CleanRow where
  timestamp : TsCell
  username : String
  followers_count : Int
  media_count : Int
  timestamp_parsed : ParsedTs
  year : Nat
  month : Nat
  day : Nat
  hour : Nat
  weekday : String
  date : Nat × Nat × Nat
  deriving Repr, DecidableEq

/-- Build the cleaned row for a raw row whose timestamp parsed to `p`:
numeric coercion of lines 42–46 and the calendar-field derivation of
lines 89–94 (components in the timestamp's own wall clock). -/
def mkClean (r : RawRow) (p : ParsedTs) : CleanRow :=
  { timestamp := TsCell.raw r.timestamp
    username := r.username
    followers_count := safe_numeric_convert r.followers_count
    media_count := safe_numeric_convert r.media_count
    timestamp_parsed := p
    year := p.dt.year
    month := p.dt.month
    day := p.dt.day
    hour := p.dt.hour
    weekday := dayName p.dt
    date := (p.dt.year, p.dt.month, p.dt.day) }

/-- `load_data` from `dash.py` (lines 23–111), after a successful
`read_csv`: drop duplicated-header rows (line 29), parse timestamps and
drop rows with `NaT` (lines 79–82), return `None` if nothing survived
(lines 84–86), derive calendar fields, then filter `year` to
`[2010, current_year + 1]` (lines 96–98). Note the emptiness check
precedes the year filter. -/
def load_data (infer : String → Option ParsedTs) (currentYear : Nat)
    (rows : List RawRow) : Option (List CleanRow) :=
  let rows1 := rows.filter fun r => decide (r.timestamp ≠ some "timestamp")
  let dfClean := rows1.filterMap fun r => (parse_timestamp infer r.timestamp).map (mkClean r)
  if dfClean.isEmpty then none
  else some (dfClean.filter fun c => decide (2010 ≤ c.year) && decide (c.year ≤ currentYear + 1))

/-- The guard of `main` at line 122: `df is None or df.empty` — when true,
no chart is drawn. -/
def main_guard (df : Option (List CleanRow)) : Bool :=
  match df with
  | none => true
  | some t => t.isEmpty

/-- The year filter of `main` (lines 138–141): if the selection is empty
the full table is used, otherwise rows whose `year` is selected. -/
def filterYears (sel : List Nat) (t : List CleanRow) : List CleanRow :=
  if sel.isEmpty then t else t.filter fun r => sel.contains r.year

/-- Model of the library call `pd.to_datetime(s, utc=True, errors='coerce')`
at line 364, on the ISO-8601-style strings this program feeds it: parse
(same shapes as the fixed format list) and normalize to a UTC instant —
an explicit offset is subtracted out, a naive result is localized as UTC;
`none` models `NaT`. -/
def pdToDatetimeUTC (s : String) : Option Int :=
  (tryFormats s).map fun p => epochSecs p.dt - 60 * p.tz.getD 0

/-- `PANDEMIA_INICIO` (line 306): `datetime(2020, 3, 1, tzinfo=pytz.UTC)`
as seconds since the epoch. -/
def pandemiaBoundary : Int := epochSecs ⟨2020, 3, 1, 0, 0, 0⟩

/-- The column overwrite of line 364 applied to one `timestamp` cell. -/
def toUtcCell : TsCell → TsCell
  | TsCell.raw (some s) => TsCell.utc (pdToDatetimeUTC s)
  | TsCell.raw none => TsCell.utc none
  | TsCell.utc t => TsCell.utc t

/-- Line 364: `df['timestamp'] = pd.to_datetime(df['timestamp'], utc=True,
errors='coerce')` — the whole-table overwrite of the timestamp column. -/
def reparseTimestamps (t : List CleanRow) : List CleanRow :=
  t.map fun r => { r with timestamp := toUtcCell r.timestamp }

/-- The comparison `x < PANDEMIA_INICIO` of line 368; `NaT` (and a
not-yet-reparsed raw cell) compares false, as in pandas. -/
def cellLt : TsCell → Int → Bool
  | TsCell.utc (some t), b => decide (t < b)
  | _, _ => false

/-- The lambda of lines 367–369 classifying one row. -/
def periodoOf (r : CleanRow) : String :=
  if cellLt r.timestamp pandemiaBoundary then "Pré-Pandemia" else "Pós-Pandemia"

/-- Lines 364–379: re-parse the raw timestamp column to UTC, classify
every row, and take the two bucket sizes for the pie chart. -/
def pieCounts (df : List CleanRow) : Nat × Nat :=
  let df2 := reparseTimestamps df
  ((df2.filter fun r => decide (periodoOf r = "Pré-Pandemia")).length,
   (df2.filter fun r => decide (periodoOf r = "Pós-Pandemia")).length)

/-- The pie-chart aggregation as `main` wires it: it receives the full
cleaned table `df`, not the year-filtered `df_filtered` (the selection is
unused by this section). -/
def mainPie (df : List CleanRow) (selectedYears : List Nat) : Nat × Nat :=
  let _dfFiltered := filterYears selectedYears df
  pieCounts df

/-- `rolling(window=3, center=True).mean()` over a numeric series:
position `i` carries the mean of positions `i-1, i, i+1` when both
neighbours exist, `none` (NaN) at the first and last positions. -/
def rolling3 (xs : List ℚ) : List (Option ℚ) :=
  (List.range xs.length).map fun i =>
    if 1 ≤ i ∧ i + 1 < xs.length then
      some ((xs.getD (i - 1) 0 + xs.getD i 0 + xs.getD (i + 1) 0) / 3)
    else none

/-- Lines 300–303: the `media_movel` column — the centred 3-month rolling
mean when the monthly series has more than 3 points, otherwise the column
is set to `None` everywhere (the rolling mean is not computed). -/
def media_movel (xs : List ℚ) : List (Option ℚ) :=
  if 3 < xs.length then rolling3 xs else xs.map fun _ => none

/-- The raw string held by a `timestamp` cell, when it still holds one. -/
def rawOf : TsCell → Option String
  | TsCell.raw s => s
  | TsCell.utc _ => none

/-- A generic-inference fallback that accepts nothing (used to
instantiate the abstract `infer` parameter at concrete inputs). -/
def infer0 : String → Option ParsedTs := fun _ => none

/-- A generic-inference fallback that accepts one verbose date string
which the five fixed formats (and hence the ISO-style re-parse of
line 364) reject — dateutil-style inference does parse such strings. -/
def inferM : String → Option ParsedTs :=
  fun s => if s = "May 1, 2021" then some ⟨⟨2021, 5, 1, 0, 0, 0⟩, none⟩ else none

/-- Fallback row used only as the `headD` default in concrete
instantiations below. -/
def rowDefault : CleanRow := mkClean ⟨none, "", none, none⟩ ⟨⟨0, 0, 0, 0, 0, 0⟩, none⟩

/-- The four timestamps of the spec's pre/post-split example, as raw rows. -/
def c2rows : List RawRow :=
  [⟨some "2019-01-01", "u", none, none⟩,
   ⟨some "2020-02-15", "u", none, none⟩,
   ⟨some "2020-03-01", "u", none, none⟩,
   ⟨some "2021-06-01", "u", none, none⟩]

/-- Cleaned table of the pre/post example (loaded with current year 2021). -/
def c2df : List CleanRow := (load_data infer0 2021 c2rows).getD []

/-- First row of the pre/post example after the line-364 re-parse. -/
def c2r0 : CleanRow := (reparseTimestamps c2df).headD rowDefault

/-- A one-row cleaned table (timestamp `2020-01-01`). -/
def c9df : List CleanRow :=
  (load_data infer0 2025 [⟨some "2020-01-01", "u", none, none⟩]).getD []

/-- Cleaned table whose single row entered via the inference fallback,
so its raw timestamp fails the strict re-parse of line 364. -/
def c10df : List CleanRow :=
  (load_data inferM 2021 [⟨some "May 1, 2021", "u", none, none⟩]).getD []

/-- That row after the line-364 re-parse (its cell is `NaT`). -/
def c10r : CleanRow := (reparseTimestamps c10df).headD rowDefault

/-! ### Helper lemmas -/

/-- Anatomy of membership in the table returned by `load_data`: every
cleaned row comes from an input row that is not a duplicated header, whose
timestamp parsed, and whose derived year passed the range filter. -/
theorem load_data_mem {infer : String → Option ParsedTs} {cy : Nat}
    {rows : List RawRow} {T : List CleanRow} {c : CleanRow}
    (hT : load_data infer cy rows = some T) (hc : c ∈ T) :
    ∃ r p, r ∈ rows ∧ r.timestamp ≠ some "timestamp" ∧
      parse_timestamp infer r.timestamp = some p ∧ c = mkClean r p ∧
      2010 ≤ c.year ∧ c.year ≤ cy + 1 := by
  simp only [load_data] at hT
  split at hT
  · exact absurd hT (by simp)
  · rcases Option.some.inj hT with rfl
    rcases List.mem_filter.mp hc with ⟨hc1, hc2⟩
    rcases List.mem_filterMap.mp hc1 with ⟨r, hr1, hr2⟩
    rcases Option.map_eq_some'.mp hr2 with ⟨p, hp, hcp⟩
    rcases List.mem_filter.mp hr1 with ⟨hrmem, hrts⟩
    rcases Bool.and_eq_true_iff.mp hc2 with ⟨h1, h2⟩
    exact ⟨r, p, hrmem, of_decide_eq_true hrts, hp, hcp.symm,
      of_decide_eq_true h1, of_decide_eq_true h2⟩

/-- If the `j`-th parser is the first in the list to succeed, the
try-in-order loop returns its result. -/
theorem firstSome_eq_of_first :
    ∀ (fs : List (String → Option ParsedTs)) (s : String) (i : Nat) (p : ParsedTs),
      i < fs.length → fs.getD i infer0 s = some p →
      (∀ j, j < i → fs.getD j infer0 s = none) →
      firstSome fs s = some p := by
  intro fs
  induction fs with
  | nil => intro s i p hi; simp at hi
  | cons f rest ih =>
    intro s i p hi hget hprev
    cases i with
    | zero =>
      simp only [List.getD_cons_zero] at hget
      simp [firstSome, hget]
    | succ n =>
      have h0 : f s = none := by
        have := hprev 0 (Nat.succ_pos n)
        simpa using this
      simp only [firstSome, h0]
      exact ih s n p (by simpa using hi) (by simpa using hget)
        (fun j hj => by simpa using hprev (j + 1) (by omega))

/-- First-format-wins propagates through `parse_timestamp`: whatever the
inference fallback does, a string accepted by one of the five fixed
formats is stored exactly as that format parsed it. -/
theorem parse_timestamp_of_tryFormats {infer : String → Option ParsedTs}
    {s : String} {p : ParsedTs} (h : tryFormats s = some p) :
    parse_timestamp infer (some s) = some p := by
  have hne : ¬(s = "timestamp" ∨ s = "") := by
    rintro (rfl | rfl)
    · rw [show tryFormats "timestamp" = none from by decide] at h; exact absurd h (by simp)
    · rw [show tryFormats "" = none from by decide] at h; exact absurd h (by simp)
  simp [parse_timestamp, hne, h]

/-- Two complementary boolean filters split a list's length. -/
theorem length_filter_add_length_filter {α : Type} (l : List α) (p q : α → Bool)
    (h : ∀ a ∈ l, p a = !q a) :
    (l.filter p).length + (l.filter q).length = l.length := by
  induction l with
  | nil => rfl
  | cons a t ih =>
    have ha := h a (List.mem_cons_self a t)
    have ht := fun x hx => h x (List.mem_cons_of_mem a hx)
    have ihh := ih ht
    cases hq : q a
    · have hp : p a = true := by rw [ha, hq]; rfl
      simp [List.filter_cons, hp, hq]
      omega
    · have hp : p a = false := by rw [ha, hq]; rfl
      simp [List.filter_cons, hp, hq]
      omega

/-- Every row is classified into exactly one of the two period buckets. -/
theorem periodo_dichotomy (r : CleanRow) :
    decide (periodoOf r = "Pré-Pandemia") = !decide (periodoOf r = "Pós-Pandemia") := by
  unfold periodoOf
  by_cases h : cellLt r.timestamp pandemiaBoundary = true
  · rw [if_pos h]; decide
  · rw [if_neg h]; decide

/-- The two pie slices always partition the table. -/
theorem pieCounts_partition (df : List CleanRow) :
    (pieCounts df).1 + (pieCounts df).2 = df.length := by
  unfold pieCounts
  rw [length_filter_add_length_filter _ _ _ (fun a _ => periodo_dichotomy a)]
  simp [reparseTimestamps]

/-- After the line-364 overwrite every timestamp cell is a UTC cell. -/
theorem reparse_cell_shape {df : List CleanRow} {r : CleanRow}
    (h : r ∈ reparseTimestamps df) : ∃ u, r.timestamp = TsCell.utc u := by
  rcases List.mem_map.mp h with ⟨x, _, rfl⟩
  cases hx : x.timestamp with
  | raw s => cases s <;> simp [toUtcCell, hx]
  | utc t => simp [toUtcCell, hx]

/-- The literal-`+0000` format yields a timezone-naive result. -/
theorem fmt2_tz {s : String} {p : ParsedTs} (h : fmt2 s = some p) : p.tz = none := by
  unfold fmt2 at h
  split at h
  · exact absurd h (by simp)
  · split at h
    · rcases Option.some.inj h with rfl; rfl
    · exact absurd h (by simp)

/-- The offset-free ISO format yields a timezone-naive result. -/
theorem fmt3_tz {s : String} {p : ParsedTs} (h : fmt3 s = some p) : p.tz = none := by
  unfold fmt3 at h
  split at h
  · exact absurd h (by simp)
  · split at h
    · rcases Option.some.inj h with rfl; rfl
    · exact absurd h (by simp)

/-- The space-separated format yields a timezone-naive result. -/
theorem fmt4_tz {s : String} {p : ParsedTs} (h : fmt4 s = some p) : p.tz = none := by
  unfold fmt4 at h
  split at h
  · exact absurd h (by simp)
  · split at h
    · rcases Option.some.inj h with rfl; rfl
    · exact absurd h (by simp)

/-- The date-only format yields a timezone-naive result. -/
theorem fmt5_tz {s : String} {p : ParsedTs} (h : fmt5 s = some p) : p.tz = none := by
  unfold fmt5 at h
  split at h
  · exact absurd h (by simp)
  · split at h
    · rcases Option.some.inj h with rfl; rfl
    · exact absurd h (by simp)

/-! ### Claims -/

/-- Claim C3 counterexample: an input whose single row parses
(`2005-01-01`) but falls outside the year range makes `load_data` return
a table with zero rows — not the `None` failure the claim promises for
every empty surviving set. -/
theorem claim_C3_counterexample :
    load_data infer0 2025 [⟨some "2005-01-01", "u", none, none⟩] = some []
    ∧ some ([] : List CleanRow) ≠ none := by
  constructor
  · decide
  · simp

/-- Claim C3 (amended): if every non-header row's timestamp fails to
parse, `load_data` returns `None` (the same sentinel a read failure
uses); a table emptied only by the year-range filter is instead returned
as a zero-row table, which `main`'s emptiness guard still refuses to
chart. -/
theorem claim_C3_empty_result :
    ∀ (infer : String → Option ParsedTs) (cy : Nat) (rows : List RawRow),
      ((∀ r ∈ rows, r.timestamp ≠ some "timestamp" →
          parse_timestamp infer r.timestamp = none) →
        load_data infer cy rows = none)
      ∧ (load_data infer cy rows = some [] →
          main_guard (load_data infer cy rows) = true) := by
  intro infer cy rows
  constructor
  · intro hall
    simp only [load_data]
    have hnil : (rows.filter fun r => decide (r.timestamp ≠ some "timestamp")).filterMap
        (fun r => (parse_timestamp infer r.timestamp).map (mkClean r)) = [] := by
      rw [List.filterMap_eq_nil_iff]
      intro r hr
      rcases List.mem_filter.mp hr with ⟨hmem, hts⟩
      rw [hall r hmem (of_decide_eq_true hts)]
      rfl
    rw [hnil]
    rfl
  · intro h
    rw [h]
    rfl

/-- Witness for the amended claim C3 at a concrete input whose only
row's timestamp is unparseable. -/
theorem claim_C3_witness :
    load_data infer0 2025 [⟨some "garbage", "u", none, none⟩] = none :=
  (claim_C3_empty_result infer0 2025 [⟨some "garbage", "u", none, none⟩]).1 (by decide)

/-- Claim C4: every row of the cleaned table has its derived year in the
closed range `[2010, currentYear + 1]`, and the year-filtered subsets
feeding the aggregations contain only such rows. -/
theorem claim_C4_year_range :
    ∀ (infer : String → Option ParsedTs) (cy : Nat) (rows : List RawRow)
      (T : List CleanRow),
      load_data infer cy rows = some T →
      (∀ c ∈ T, 2010 ≤ c.year ∧ c.year ≤ cy + 1)
      ∧ (∀ sel, ∀ c ∈ filterYears sel T, 2010 ≤ c.year ∧ c.year ≤ cy + 1) := by
  intro infer cy rows T hT
  have hmem : ∀ c ∈ T, 2010 ≤ c.year ∧ c.year ≤ cy + 1 := by
    intro c hc
    rcases load_data_mem hT hc with ⟨r, p, _, _, _, _, h1, h2⟩
    exact ⟨h1, h2⟩
  refine ⟨hmem, fun sel c hc => hmem c ?_⟩
  unfold filterYears at hc
  split at hc
  · exact hc
  · exact (List.mem_filter.mp hc).1

/-- Witness for claim C4 on the concrete four-row example table. -/
theorem claim_C4_witness :
    2010 ≤ (c2df.headD rowDefault).year ∧ (c2df.headD rowDefault).year ≤ 2021 + 1 :=
  (claim_C4_year_range infer0 2021 c2rows c2df (by decide)).1 _ (by decide)

/-- Claim C5 counterexample: the raw value `"-5"` parses numerically, so
the cleaned row carries `followers_count = -5 < 0` — the claimed
invariant `followers_count ≥ 0` fails. -/
theorem claim_C5_counterexample :
    (load_data infer0 2025 [⟨some "2020-01-01", "u", some "-5", none⟩]).map
        (fun t => t.map CleanRow.followers_count) = some [-5]
    ∧ ¬ (0 : Int) ≤ -5 := by
  constructor
  · decide
  · decide

/-- Claim C5 (amended): `followers_count` (and `media_count`) are never
null in the cleaned table — a missing or unparseable raw value is
coerced to `0` instead of dropping the row or propagating a null — but a
parseable negative value passes through unchanged, so non-negativity is
only guaranteed for non-negative raw data. -/
theorem claim_C5_numeric_default :
    (safe_numeric_convert none = 0)
    ∧ (∀ s, parseIntStrict s = none → safe_numeric_convert (some s) = 0)
    ∧ (∀ s n, parseIntStrict s = some n → safe_numeric_convert (some s) = n)
    ∧ (∀ (infer : String → Option ParsedTs) (cy : Nat) (rows : List RawRow)
        (T : List CleanRow) (c : CleanRow),
        load_data infer cy rows = some T → c ∈ T →
        ∃ r, r ∈ rows ∧ c.followers_count = safe_numeric_convert r.followers_count
          ∧ c.media_count = safe_numeric_convert r.media_count) := by
  refine ⟨rfl, ?_, ?_, ?_⟩
  · intro s h
    simp [safe_numeric_convert, h]
  · intro s n h
    simp [safe_numeric_convert, h]
  · intro infer cy rows T c hT hc
    rcases load_data_mem hT hc with ⟨r, p, hmem, _, _, hcp, _, _⟩
    exact ⟨r, hmem, by rw [hcp]; rfl, by rw [hcp]; rfl⟩

/-- Witness for the amended claim C5: unparseable raw value coerced to
0, signed value passed through, and a concrete cleaned row's numeric
fields traced back to its raw row. -/
theorem claim_C5_witness :
    safe_numeric_convert (some "abc") = 0
    ∧ safe_numeric_convert (some "-5") = -5
    ∧ ∃ r, r ∈ c2rows
        ∧ (c2df.headD rowDefault).followers_count = safe_numeric_convert r.followers_count
        ∧ (c2df.headD rowDefault).media_count = safe_numeric_convert r.media_count :=
  ⟨claim_C5_numeric_default.2.1 "abc" (by decide),
   claim_C5_numeric_default.2.2.1 "-5" (-5) (by decide),
   claim_C5_numeric_default.2.2.2 infer0 2021 c2rows c2df _ (by decide) (by decide)⟩

/-- Claim C7: a row whose timestamp field is the literal header string
`"timestamp"` is removed before any further processing (running the
pipeline on the pre-filtered input changes nothing), such a value never
parses, and no cleaned row carries it. -/
theorem claim_C7_header_filter :
    ∀ (infer : String → Option ParsedTs) (cy : Nat) (rows : List RawRow)
      (T : List CleanRow),
      parse_timestamp infer (some "timestamp") = none
      ∧ load_data infer cy rows
          = load_data infer cy (rows.filter fun r => decide (r.timestamp ≠ some "timestamp"))
      ∧ (load_data infer cy rows = some T →
          ∀ c ∈ T, c.timestamp ≠ TsCell.raw (some "timestamp")) := by
  intro infer cy rows T
  refine ⟨by simp [parse_timestamp], ?_, ?_⟩
  · unfold load_data
    rw [List.filter_filter]
    simp
  · intro hT c hc
    rcases load_data_mem hT hc with ⟨r, p, _, hne, _, hcp, _, _⟩
    rw [hcp]
    simp only [mkClean]
    intro hbad
    exact hne (TsCell.raw.inj hbad)

/-- Witness for claim C7 on a concrete input containing a duplicated
header row. -/
theorem claim_C7_witness :
    parse_timestamp infer0 (some "timestamp") = none
    ∧ ((c9df.headD rowDefault).timestamp ≠ TsCell.raw (some "timestamp")) :=
  ⟨(claim_C7_header_filter infer0 2025 [] []).1,
   (claim_C7_header_filter infer0 2025
      [⟨some "timestamp", "u", none, none⟩, ⟨some "2020-01-01", "u", none, none⟩]
      c9df).2.2 (by decide) _ (by decide)⟩

/-- Claim C1: `parse_timestamp` tries the five format strings in source
order and the first that parses determines the result; only when all
five fail is the generic inference fallback consulted, and when that
also fails the result is `NaT`, whereupon `load_data` drops the row
(every cleaned row's raw timestamp parses). For the two sentinel
strings `"timestamp"` and `""` the code short-circuits before the loop;
all five formats and real generic inference reject them anyway, so the
observable result (`NaT`, row dropped) is the same. -/
theorem claim_C1_format_order :
    ∀ (infer : String → Option ParsedTs) (s : String),
      (∀ p, tryFormats s = some p → parse_timestamp infer (some s) = some p)
      ∧ (∀ i p, i < formatsList.length →
          formatsList.getD i infer0 s = some p →
          (∀ j, j < i → formatsList.getD j infer0 s = none) →
          parse_timestamp infer (some s) = some p)
      ∧ (tryFormats s = none → infer s = none → parse_timestamp infer (some s) = none)
      ∧ (∀ (cy : Nat) (rows : List RawRow) (T : List CleanRow), ∀ c ∈ T,
          load_data infer cy rows = some T →
          parse_timestamp infer (rawOf c.timestamp) ≠ none) := by
  intro infer s
  refine ⟨fun p h => parse_timestamp_of_tryFormats h, ?_, ?_, ?_⟩
  · intro i p hi hget hprev
    exact parse_timestamp_of_tryFormats
      (firstSome_eq_of_first formatsList s i p hi hget hprev)
  · intro hfail hinf
    by_cases hg : s = "timestamp" ∨ s = ""
    · simp [parse_timestamp, hg]
    · simp [parse_timestamp, hg, hfail, hinf]
  · intro cy rows T c hc hT
    rcases load_data_mem hT hc with ⟨r, p, _, _, hp, hcp, _, _⟩
    rw [hcp]
    simpa only [mkClean, rawOf] using hp ▸ (by simp : some p ≠ none)

/-- Witness for claim C1: a date-only string is accepted by the fifth
format (the four earlier ones failing), an unparseable string with a
failing fallback yields `NaT`, and a concrete cleaned row's raw
timestamp parses. -/
theorem claim_C1_witness :
    parse_timestamp infer0 (some "2019-01-01") = some ⟨⟨2019, 1, 1, 0, 0, 0⟩, none⟩
    ∧ parse_timestamp infer0 (some "garbage") = none
    ∧ parse_timestamp infer0 (rawOf ((c2df.headD rowDefault).timestamp)) ≠ none :=
  ⟨(claim_C1_format_order infer0 "2019-01-01").2.1 4 ⟨⟨2019, 1, 1, 0, 0, 0⟩, none⟩
      (by decide) (by decide) (by decide),
   (claim_C1_format_order infer0 "garbage").2.2.1 (by decide) rfl,
   (claim_C1_format_order infer0 "2019-01-01").2.2.2 2021 c2rows c2df _
      (by decide) (by decide)⟩

/-- Claim C6 counterexample: parsed timestamps are not normalized to
UTC — a raw string carrying a `+0530` offset is stored with that offset
(330 minutes, not 0), and a date-only string is stored timezone-naive. -/
theorem claim_C6_counterexample :
    parse_timestamp infer0 (some "2021-05-01T10:00:00+0530")
        = some ⟨⟨2021, 5, 1, 10, 0, 0⟩, some 330⟩
    ∧ (330 : Int) ≠ 0
    ∧ (parse_timestamp infer0 (some "2019-01-01")).map ParsedTs.tz = some none := by
  refine ⟨by decide, by decide, by decide⟩

/-- Claim C6 (amended): `parse_timestamp` stores each timestamp exactly
as the winning format parsed it — an explicit numeric offset is kept as
that offset and the offset-free formats give a timezone-naive value; the
only UTC normalization in the program is the line-364 re-parse, which
maps a parsed value to the absolute instant `epochSecs dt − 60·offset`
(naive values being localized as UTC). -/
theorem claim_C6_offset_preserved :
    ∀ (infer : String → Option ParsedTs) (s : String) (p : ParsedTs),
      (tryFormats s = some p → parse_timestamp infer (some s) = some p)
      ∧ ((fmt2 s = some p ∨ fmt3 s = some p ∨ fmt4 s = some p ∨ fmt5 s = some p) →
          p.tz = none)
      ∧ (tryFormats s = some p →
          pdToDatetimeUTC s = some (epochSecs p.dt - 60 * p.tz.getD 0)) := by
  intro infer s p
  refine ⟨fun h => parse_timestamp_of_tryFormats h, ?_, ?_⟩
  · rintro (h | h | h | h)
    · exact fmt2_tz h
    · exact fmt3_tz h
    · exact fmt4_tz h
    · exact fmt5_tz h
  · intro h
    simp [pdToDatetimeUTC, h]

/-- Witness for the amended claim C6: a space-separated string is stored
naive and the line-364 re-parse maps a `+0530`-offset string to its UTC
instant. -/
theorem claim_C6_witness :
    parse_timestamp infer0 (some "2020-03-01 12:00:00")
        = some ⟨⟨2020, 3, 1, 12, 0, 0⟩, none⟩
    ∧ (⟨⟨2020, 3, 1, 12, 0, 0⟩, none⟩ : ParsedTs).tz = none
    ∧ pdToDatetimeUTC "2021-05-01T10:00:00+0530"
        = some (epochSecs ⟨2021, 5, 1, 10, 0, 0⟩ - 60 * (some (330 : Int)).getD 0) :=
  ⟨(claim_C6_offset_preserved infer0 "2020-03-01 12:00:00"
      ⟨⟨2020, 3, 1, 12, 0, 0⟩, none⟩).1 (by decide),
   (claim_C6_offset_preserved infer0 "2020-03-01 12:00:00"
      ⟨⟨2020, 3, 1, 12, 0, 0⟩, none⟩).2.1 (Or.inr (Or.inr (Or.inl (by decide)))),
   (claim_C6_offset_preserved infer0 "2021-05-01T10:00:00+0530"
      ⟨⟨2021, 5, 1, 10, 0, 0⟩, some 330⟩).2.2 (by decide)⟩

/-- Claim C8: the 3-month centred rolling average column has the length
of the monthly series; it is entirely undefined (all entries `None`)
when the series has 3 or fewer points, and with more than 3 points it is
undefined exactly at the first and last positions and carries the
centred window mean at every interior position. -/
theorem claim_C8_rolling_mean :
    ∀ xs : List ℚ,
      (media_movel xs).length = xs.length
      ∧ (xs.length ≤ 3 → ∀ v ∈ media_movel xs, v = none)
      ∧ (3 < xs.length →
          (media_movel xs).get? 0 = some none
          ∧ (media_movel xs).get? (xs.length - 1) = some none
          ∧ ∀ i, 1 ≤ i → i + 1 < xs.length →
              (media_movel xs).get? i
                = some (some ((xs.getD (i - 1) 0 + xs.getD i 0 + xs.getD (i + 1) 0) / 3))) := by
  intro xs
  refine ⟨?_, ?_, ?_⟩
  · unfold media_movel
    split
    · simp [rolling3]
    · simp
  · intro hle v hv
    have hnot : ¬ 3 < xs.length := by omega
    unfold media_movel at hv
    rw [if_neg hnot] at hv
    rcases List.mem_map.mp hv with ⟨_, _, rfl⟩
    rfl
  · intro hgt
    have hmm : media_movel xs = rolling3 xs := by unfold media_movel; rw [if_pos hgt]
    have hget : ∀ i, i < xs.length →
        (rolling3 xs).get? i
          = some (if 1 ≤ i ∧ i + 1 < xs.length then
              some ((xs.getD (i - 1) 0 + xs.getD i 0 + xs.getD (i + 1) 0) / 3)
            else none) := by
      intro i hi
      unfold rolling3
      rw [List.get?_map, List.get?_range hi]
      rfl
    refine ⟨?_, ?_, ?_⟩
    · rw [hmm, hget 0 (by omega)]
      simp
    · rw [hmm, hget (xs.length - 1) (by omega)]
      have : ¬ (1 ≤ xs.length - 1 ∧ xs.length - 1 + 1 < xs.length) := by omega
      rw [if_neg this]
    · intro i h1 h2
      rw [hmm, hget i (by omega), if_pos ⟨h1, h2⟩]

/-- Witness for claim C8 on concrete short and long series. -/
theorem claim_C8_witness :
    (media_movel ([1, 2, 3] : List ℚ)).length = 3
    ∧ (media_movel ([1, 2, 3, 4, 5] : List ℚ)).get? 0 = some none
    ∧ (media_movel ([1, 2, 3, 4, 5] : List ℚ)).get? 2
        = some (some ((([1, 2, 3, 4, 5] : List ℚ).getD 1 0
            + ([1, 2, 3, 4, 5] : List ℚ).getD 2 0
            + ([1, 2, 3, 4, 5] : List ℚ).getD 3 0) / 3)) :=
  ⟨(claim_C8_rolling_mean ([1, 2, 3] : List ℚ)).1,
   ((claim_C8_rolling_mean ([1, 2, 3, 4, 5] : List ℚ)).2.2 (by simp)).1,
   ((claim_C8_rolling_mean ([1, 2, 3, 4, 5] : List ℚ)).2.2 (by simp)).2.2 2
      (by omega) (by simp)⟩

/-- Claim C2: the pre/post-pandemic pie consumes the full cleaned table
(its result does not depend on the year selection), its two buckets
partition the table, a row is "Pré-Pandemia" exactly when its re-parsed
UTC instant is strictly before the 2020-03-01T00:00:00Z threshold (the
boundary instant itself lands in "Pós-Pandemia"), and on the four-row
example [2019-01-01, 2020-02-15, 2020-03-01, 2021-06-01] the counts are
(pre, post) = (2, 2). -/
theorem claim_C2_prepost_split :
    ∀ (df : List CleanRow) (sel sel' : List Nat),
      mainPie df sel = mainPie df sel'
      ∧ mainPie df sel = pieCounts df
      ∧ (pieCounts df).1 + (pieCounts df).2 = df.length
      ∧ (∀ r ∈ reparseTimestamps df,
          (periodoOf r = "Pré-Pandemia"
            ↔ ∃ t, r.timestamp = TsCell.utc (some t) ∧ t < pandemiaBoundary))
      ∧ (load_data infer0 2021 c2rows).map pieCounts = some (2, 2) := by
  intro df sel sel'
  refine ⟨rfl, rfl, pieCounts_partition df, ?_, by decide⟩
  intro r hr
  rcases reparse_cell_shape hr with ⟨u, hu⟩
  unfold periodoOf
  rw [hu]
  cases u with
  | none =>
    constructor
    · intro hper
      rw [show cellLt (TsCell.utc none) pandemiaBoundary = false from rfl] at hper
      exact absurd hper (by decide)
    · rintro ⟨t, ht, _⟩
      exact absurd ht (by simp)
  | some t =>
    by_cases hlt : t < pandemiaBoundary
    · rw [show cellLt (TsCell.utc (some t)) pandemiaBoundary = true from by
        simp [cellLt, hlt]]
      simp only [if_true]
      exact ⟨fun _ => ⟨t, rfl, hlt⟩, fun _ => by trivial⟩
    · rw [show cellLt (TsCell.utc (some t)) pandemiaBoundary = false from by
        simp [cellLt, hlt]]
      constructor
      · intro hper
        exact absurd hper (by decide)
      · rintro ⟨t', ht', hlt'⟩
        rcases Option.some.inj (TsCell.utc.inj ht') with rfl
        exact absurd hlt' hlt

/-- Witness for claim C2 on the example table: partition and the
strict-before characterization of its first (pre-pandemic) row. -/
theorem claim_C2_witness :
    (pieCounts c2df).1 + (pieCounts c2df).2 = c2df.length
    ∧ (periodoOf c2r0 = "Pré-Pandemia"
        ↔ ∃ t, c2r0.timestamp = TsCell.utc (some t) ∧ t < pandemiaBoundary) :=
  ⟨(claim_C2_prepost_split c2df [] []).2.2.1,
   (claim_C2_prepost_split c2df [] []).2.2.2.1 c2r0 (by decide)⟩

/-- Claim C9 counterexample: running the pre/post aggregation does
mutate the table `main` holds — line 364 overwrites the raw `timestamp`
string column with re-parsed UTC instants, so on a concrete one-row
cleaned table the overwritten table differs from the cached one. -/
theorem claim_C9_counterexample :
    load_data infer0 2025 [⟨some "2020-01-01", "u", none, none⟩] = some c9df
    ∧ reparseTimestamps c9df ≠ c9df := by
  constructor
  · decide
  · decide

/-- Claim C9 (amended): the year filter produces a pure subset view
(a sublist, with rows unchanged), and the line-364 overwrite changes
only the `timestamp` column — every other field of every row is
preserved; but the timestamp column itself is rewritten, so the table is
not left unchanged (Streamlit's per-call cache copy is what protects the
underlying cached value). -/
theorem claim_C9_filter_pure :
    ∀ (sel : List Nat) (df : List CleanRow),
      (filterYears sel df).Sublist df
      ∧ (∀ r ∈ filterYears sel df, r ∈ df)
      ∧ (∀ r ∈ df,
          { r with timestamp := toUtcCell r.timestamp } ∈ reparseTimestamps df
          ∧ ({ r with timestamp := toUtcCell r.timestamp }).username = r.username
          ∧ ({ r with timestamp := toUtcCell r.timestamp }).followers_count = r.followers_count
          ∧ ({ r with timestamp := toUtcCell r.timestamp }).media_count = r.media_count
          ∧ ({ r with timestamp := toUtcCell r.timestamp }).timestamp_parsed = r.timestamp_parsed
          ∧ ({ r with timestamp := toUtcCell r.timestamp }).year = r.year
          ∧ ({ r with timestamp := toUtcCell r.timestamp }).month = r.month
          ∧ ({ r with timestamp := toUtcCell r.timestamp }).day = r.day
          ∧ ({ r with timestamp := toUtcCell r.timestamp }).hour = r.hour
          ∧ ({ r with timestamp := toUtcCell r.timestamp }).weekday = r.weekday
          ∧ ({ r with timestamp := toUtcCell r.timestamp }).date = r.date) := by
  intro sel df
  refine ⟨?_, ?_, ?_⟩
  · unfold filterYears
    split
    · exact List.Sublist.refl df
    · exact List.filter_sublist df
  · intro r hr
    unfold filterYears at hr
    split at hr
    · exact hr
    · exact (List.mem_filter.mp hr).1
  · intro r hr
    exact ⟨List.mem_map.mpr ⟨r, hr, rfl⟩, rfl, rfl, rfl, rfl, rfl, rfl, rfl, rfl, rfl, rfl⟩

/-- Witness for the amended claim C9 at a concrete selection and table. -/
theorem claim_C9_witness :
    (filterYears [2020] c9df).Sublist c9df
    ∧ ({ c9df.headD rowDefault with
          timestamp := toUtcCell (c9df.headD rowDefault).timestamp }
        ∈ reparseTimestamps c9df) :=
  ⟨(claim_C9_filter_pure [2020] c9df).1,
   ((claim_C9_filter_pure [2020] c9df).2.2 (c9df.headD rowDefault) (by decide)).1⟩

/-- Claim C10: a cleaned row whose raw timestamp string fails the strict
UTC re-parse of line 364 holds `NaT`, which is never strictly below the
pandemic threshold, so the row is classified "Pós-Pandemia"; and the two
pie buckets still count every row of the table (such rows are included,
not excluded). -/
theorem claim_C10_nat_rows_post :
    ∀ (df : List CleanRow) (r : CleanRow),
      r ∈ reparseTimestamps df → r.timestamp = TsCell.utc none →
      periodoOf r = "Pós-Pandemia"
      ∧ cellLt (TsCell.utc none) pandemiaBoundary = false
      ∧ (pieCounts df).1 + (pieCounts df).2 = df.length := by
  intro df r hr hnat
  refine ⟨?_, rfl, pieCounts_partition df⟩
  unfold periodoOf
  rw [hnat]
  rfl

/-- Witness for claim C10: a table whose single row entered through the
inference fallback (raw string `"May 1, 2021"`), failing the ISO-style
re-parse, is counted as post-pandemic. -/
theorem claim_C10_witness :
    periodoOf c10r = "Pós-Pandemia"
    ∧ (pieCounts c10df).1 + (pieCounts c10df).2 = c10df.length :=
  ⟨(claim_C10_nat_rows_post c10df c10r (by decide) (by decide)).1,
   (claim_C10_nat_rows_post c10df c10r (by decide) (by decide)).2.2⟩

end Dash
